import Mathlib

/-!
Verification of the golsptoolkit base-protocol layer.

The Go source file baseprotocol.go declares the LSP base types
(HeaderPart, the message structs, the LSPAny family and its checkers)
and the error-code constants. Dynamic Go values of type any are
embedded as the inductive GoValue below; the constructor vOther stands
for every dynamic type outside the LSP value vocabulary.
-/

/-- Embedding of a Go value of dynamic type any, as used for LSPAny
fields. Each constructor records the dynamic type observed by a Go
type switch: string, Integer (int32), UInteger (uint32), Decimal
(float64), bool, the nil interface, LSPObject (map of string to any),
LSPArray (slice of any), and vOther for every other dynamic type. -/
inductive GoValue where
  | vString (s : String)
  | vInteger (n : Int)
  | vUInteger (n : Nat)
  | vDecimal (x : Float)
  | vBool (b : Bool)
  | vNil
  | vObject (fields : List (String × GoValue))
  | vArray (elems : List GoValue)
  | vOther (typeName : String)

/-- Embedding of the source function IsLSPAny: a single Go type switch
on the dynamic type of the argument, with no recursion into elements. -/
def IsLSPAny : GoValue → Bool
  | .vString _ => true
  | .vInteger _ => true
  | .vUInteger _ => true
  | .vDecimal _ => true
  | .vBool _ => true
  | .vNil => true
  | .vObject _ => true
  | .vArray _ => true
  | .vOther _ => false

/-- Embedding of the source function IsLSPArrayOrObject: a Go type
switch matching only LSPArray and LSPObject. -/
def IsLSPArrayOrObject : GoValue → Bool
  | .vArray _ => true
  | .vObject _ => true
  | _ => false

mutual

/-- The StructuredValue (LSPAny) grammar as the spec words it: a value
is admissible when it is a string, 32-bit signed integer, 32-bit
unsigned integer, 64-bit float, boolean, null, a sequence all of whose
elements are admissible, or a string-keyed mapping all of whose values
are admissible. Written from the spec for comparison with IsLSPAny. -/
def isStructuredValue : GoValue → Bool
  | .vString _ => true
  | .vInteger _ => true
  | .vUInteger _ => true
  | .vDecimal _ => true
  | .vBool _ => true
  | .vNil => true
  | .vObject fs => isStructuredFields fs
  | .vArray es => isStructuredList es
  | .vOther _ => false

/-- All elements of a sequence satisfy the StructuredValue grammar. -/
def isStructuredList : List GoValue → Bool
  | [] => true
  | e :: es => isStructuredValue e && isStructuredList es

/-- All values of a string-keyed mapping satisfy the grammar. -/
def isStructuredFields : List (String × GoValue) → Bool
  | [] => true
  | (_, v) :: fs => isStructuredValue v && isStructuredFields fs

end

/-- Embedding of the source struct HeaderPart. The Go field
ContentLength has type int, a signed integer. -/
structure HeaderPart where
  ContentLength : Int
  ContentType : String

/-- Embedding of the source struct AbstractMessage. -/
structure AbstractMessage where
  JSONRPC : String

/-- Embedding of the source struct RequestMessage. The ID field has Go
type json.Number, a string holding a numeric literal. -/
structure RequestMessage where
  abstractMessage : AbstractMessage
  ID : String
  Method : String
  Params : GoValue

/-- Embedding of the source struct ResponseError. The Data field is an
LSPAny with omitempty; the nil interface (vNil) stands for absent. -/
structure ResponseError where
  Code : Int
  Message : String
  Data : GoValue

/-- Embedding of the source struct ResponseMessage. ID is a pointer to
json.Number (none is the nil pointer), Result is an LSPAny with
omitempty (vNil stands for absent), Error is a pointer to
ResponseError (none is the nil pointer, meaning absent). -/
structure ResponseMessage where
  abstractMessage : AbstractMessage
  ID : Option String
  Result : GoValue
  Error : Option ResponseError

/-- Embedding of the source struct NotificationMessage. -/
structure NotificationMessage where
  abstractMessage : AbstractMessage
  Method : String
  Params : GoValue

/-- Result is present exactly when it is not the nil interface, since
the Go json tag omitempty drops a nil interface field. -/
def resultPresent (r : ResponseMessage) : Bool :=
  match r.Result with
  | .vNil => false
  | _ => true

/-- Error is present exactly when the pointer is not nil. -/
def errorPresent (r : ResponseMessage) : Bool :=
  r.Error.isSome

/-- Exactly one of the result and error fields of a response is present. -/
def responseExactlyOne (r : ResponseMessage) : Bool :=
  resultPresent r != errorPresent r

/-! Error-code constants of the source, Go type Integer (int32),
embedded as integers; every value below is well inside the int32 range. -/

def ParseError : Int := -32700
def InvalidRequest : Int := -32600
def MethodNotFound : Int := -32601
def InvalidParams : Int := -32602
def InternalError : Int := -32603
def JSONRPCReservedErrorRangeStart : Int := -32099
def ServerErrorStart : Int := -32099
def ServerNotInitialized : Int := -32002
def UnknownErrorCode : Int := -32001
def JSONRPCReservedErrorRangeEnd : Int := -32000
def ServerErrorEnd : Int := -32000
def LSPReservedErrorRangeStart : Int := -32899
def RequestFailed : Int := -32803
def ServerCancelled : Int := -32804
def ContentModified : Int := -32801
def RequestCancelled : Int := -32800
def LSPReservedErrorRangeEnd : Int := -32800

/-- C1: The ErrorCatalog constants carry exactly the fixed wire values
the spec lists, from ParseError at -32700 down to RequestCancelled at
-32800. -/
theorem c1_error_catalog_values :
    ParseError = -32700 ∧ InvalidRequest = -32600 ∧ MethodNotFound = -32601 ∧
    InvalidParams = -32602 ∧ InternalError = -32603 ∧
    ServerNotInitialized = -32002 ∧ UnknownErrorCode = -32001 ∧
    RequestFailed = -32803 ∧ ServerCancelled = -32804 ∧
    ContentModified = -32801 ∧ RequestCancelled = -32800 := by
  refine ⟨rfl, rfl, rfl, rfl, rfl, rfl, rfl, rfl, rfl, rfl, rfl⟩

/-- C9: The reserved-range constants mark the JSON-RPC reserved error
range as exactly -32099 to -32000 and the LSP reserved error range as
exactly -32899 to -32800. -/
theorem c9_reserved_ranges :
    JSONRPCReservedErrorRangeStart = -32099 ∧
    JSONRPCReservedErrorRangeEnd = -32000 ∧
    LSPReservedErrorRangeStart = -32899 ∧
    LSPReservedErrorRangeEnd = -32800 := by
  refine ⟨rfl, rfl, rfl, rfl⟩

/-- C10: Every value accepted by IsLSPArrayOrObject is accepted by
IsLSPAny: the array-or-object check is a subset of the LSPAny check. -/
theorem c10_array_or_object_subset_lspany :
    ∀ v : GoValue, IsLSPArrayOrObject v = true → IsLSPAny v = true := by
  intro v h
  cases v <;> simp_all [IsLSPArrayOrObject, IsLSPAny]

/-- Witness for C10 at the empty array. -/
theorem c10_array_or_object_subset_lspany_witness :
    IsLSPArrayOrObject (GoValue.vArray []) = true ∧
    IsLSPAny (GoValue.vArray []) = true :=
  ⟨rfl, c10_array_or_object_subset_lspany (GoValue.vArray []) rfl⟩

/-- C3 counterexample: IsLSPAny accepts an LSPArray whose single
element is a Go channel value, although that array violates the
StructuredValue grammar, so the claimed equivalence fails here. -/
theorem c3_islspany_recursive_counterexample :
    IsLSPAny (GoValue.vArray [GoValue.vOther "chan int"]) = true ∧
    isStructuredValue (GoValue.vArray [GoValue.vOther "chan int"]) = false := by
  refine ⟨rfl, ?_⟩
  simp [isStructuredValue, isStructuredList]

/-- C3 amended: IsLSPAny inspects only the top-level dynamic type, so
every value satisfying the StructuredValue grammar recursively is
accepted, but a sequence or mapping with grammar-violating elements is
accepted as well. This theorem is the direction that survives. -/
theorem c3_islspany_sound :
    ∀ v : GoValue, isStructuredValue v = true → IsLSPAny v = true := by
  intro v h
  cases v <;> simp_all [isStructuredValue, IsLSPAny]

/-- Witness for the amended C3 at a small object value. -/
theorem c3_islspany_sound_witness :
    isStructuredValue (GoValue.vObject [("k", GoValue.vInteger 1)]) = true ∧
    IsLSPAny (GoValue.vObject [("k", GoValue.vInteger 1)]) = true := by
  have h : isStructuredValue (GoValue.vObject [("k", GoValue.vInteger 1)]) = true := by
    simp [isStructuredValue, isStructuredFields]
  exact ⟨h, c3_islspany_sound _ h⟩

/-- C5 counterexample: the zero value of the ResponseMessage struct has
neither result nor error present, so not every ResponseMessage value
satisfies the exactly-one invariant. -/
theorem c5_exactly_one_counterexample :
    responseExactlyOne (ResponseMessage.mk (AbstractMessage.mk "2.0") none GoValue.vNil none) = false := by
  rfl

/-- C8 counterexample: the ContentLength field of HeaderPart is a
signed Go int, so a header value with a negative content length is
representable; the type does not enforce the invariant. -/
theorem c8_nonneg_counterexample :
    ¬ (0 ≤ (HeaderPart.mk (-1) "").ContentLength) := by
  decide

/-!
The MessageCodec itself is not part of the source file: baseprotocol.go
only declares the message structs. The spec defines the codec in its
section 4.3 and the Message data model in section 3; the definitions in
the Spec namespace below are modelled from those words. The body of a
message is represented at the level of a parsed JSON value, reusing
GoValue as the value grammar, where vNil is the JSON null.
-/

namespace Spec

/-- Modelled from the spec: the ID of a message, a union of integer or
string (the codec of the repository is missing; only struct
declarations exist in the source). -/
inductive MsgID where
  | num (n : Int)
  | str (s : String)

/-- Modelled from the spec: a Request carries an id, a method name and
an optional structured params value. -/
structure RequestMsg where
  id : MsgID
  method : String
  params : Option GoValue

/-- Modelled from the spec: a ResponseError carries a code, a message
and an optional structured data value. -/
structure RespErr where
  code : Int
  message : String
  data : Option GoValue

/-- Modelled from the spec: a Response carries exactly one of a result
value or an error, here by construction as a sum. -/
inductive RespOutcome where
  | result (v : GoValue)
  | error (e : RespErr)

/-- Modelled from the spec: a Response has an id that is an integer, a
string, or null (none), and exactly one outcome. -/
structure ResponseMsg where
  id : Option MsgID
  outcome : RespOutcome

/-- Modelled from the spec: a Notification has a method and optional
params and no id at all. -/
structure NotificationMsg where
  method : String
  params : Option GoValue

/-- Modelled from the spec: the Message tagged union of the three
variants Request, Response and Notification. -/
inductive Message where
  | request (r : RequestMsg)
  | response (r : ResponseMsg)
  | notification (n : NotificationMsg)

/-- Codec failures used by encode and decode. -/
inductive CodecErr where
  | invalidRequest
  | invalidParams

/-- Encoding of an ID onto the wire: an integer stays a JSON number, a
string stays a JSON string. -/
def encId : MsgID → GoValue
  | .num n => .vInteger n
  | .str s => .vString s

/-- Decoding of an ID from the wire: a JSON number yields an integer
ID, a JSON string yields a string ID, anything else is rejected. -/
def decId : GoValue → Option MsgID
  | .vInteger n => some (.num n)
  | .vString s => some (.str s)
  | _ => none

/-- Encoding of a response id, where none becomes JSON null. -/
def encRespId : Option MsgID → GoValue
  | none => .vNil
  | some i => encId i

/-- Decoding of a response id, where JSON null yields none. -/
def decRespId : GoValue → Option (Option MsgID)
  | .vNil => some none
  | v => (decId v).map some

/-- An optional payload satisfies the StructuredValue grammar. -/
def checkSV : Option GoValue → Bool
  | none => true
  | some v => isStructuredValue v

/-- The field list contributed by an optional payload: present fields
are emitted, absent fields are omitted. -/
def optField (k : String) : Option GoValue → List (String × GoValue)
  | some v => [(k, v)]
  | none => []

/-- First-match lookup of a field in a JSON object. -/
def lookupField : List (String × GoValue) → String → Option GoValue
  | [], _ => none
  | (k, v) :: fs, key => if k = key then some v else lookupField fs key

/-- Modelled from the spec: encoding of a ResponseError object with
fields code, message and then data, data omitted when absent and
rejected with InvalidParams when it violates the grammar. -/
def encodeError (e : RespErr) : Except CodecErr GoValue :=
  if checkSV e.data then
    .ok (.vObject ([("code", .vInteger e.code), ("message", .vString e.message)] ++
      optField "data" e.data))
  else .error .invalidParams

/-- Decoding of a ResponseError object. -/
def decodeError (v : GoValue) : Option RespErr :=
  match v with
  | .vObject fs =>
    match lookupField fs "code", lookupField fs "message" with
    | some (.vInteger c), some (.vString m) => some ⟨c, m, lookupField fs "data"⟩
    | _, _ => none
  | _ => none

/-- Modelled from the spec: encode of the missing MessageCodec.
Serializes with stable field ordering jsonrpc, id, method, then
params, result or error; omits optional fields when absent; fails
with InvalidParams if a payload violates the StructuredValue grammar. -/
def encode : Message → Except CodecErr GoValue
  | .request r =>
    if checkSV r.params then
      .ok (.vObject ([("jsonrpc", .vString "2.0"), ("id", encId r.id),
        ("method", .vString r.method)] ++ optField "params" r.params))
    else .error .invalidParams
  | .notification n =>
    if checkSV n.params then
      .ok (.vObject ([("jsonrpc", .vString "2.0"),
        ("method", .vString n.method)] ++ optField "params" n.params))
    else .error .invalidParams
  | .response r =>
    match r.outcome with
    | .result v =>
      if isStructuredValue v then
        .ok (.vObject [("jsonrpc", .vString "2.0"), ("id", encRespId r.id), ("result", v)])
      else .error .invalidParams
    | .error e =>
      match encodeError e with
      | .ok ev => .ok (.vObject [("jsonrpc", .vString "2.0"), ("id", encRespId r.id), ("error", ev)])
      | .error err => .error err

/-- Modelled from the spec: decode of the missing MessageCodec.
Requires jsonrpc equal to 2.0, then classifies by presence of fields:
method and no id is a Notification, method and id is a Request, id
with result or error and no method is a Response; everything else is
an InvalidRequest. -/
def decode (body : GoValue) : Except CodecErr Message :=
  match body with
  | .vObject fs =>
    match lookupField fs "jsonrpc" with
    | some (.vString "2.0") =>
      match lookupField fs "method", lookupField fs "id" with
      | some (.vString m), none =>
        .ok (.notification ⟨m, lookupField fs "params"⟩)
      | some (.vString m), some idv =>
        match decId idv with
        | some i => .ok (.request ⟨i, m, lookupField fs "params"⟩)
        | none => .error .invalidRequest
      | none, some idv =>
        match decRespId idv with
        | some oid =>
          match lookupField fs "result", lookupField fs "error" with
          | some rv, none => .ok (.response ⟨oid, .result rv⟩)
          | none, some ev =>
            match decodeError ev with
            | some e => .ok (.response ⟨oid, .error e⟩)
            | none => .error .invalidRequest
          | _, _ => .error .invalidRequest
        | none => .error .invalidRequest
      | _, _ => .error .invalidRequest
    | _ => .error .invalidRequest
  | _ => .error .invalidRequest

/-- A message is valid when every payload reachable from its params,
result or data field satisfies the StructuredValue grammar. -/
def validMessage : Message → Bool
  | .request r => checkSV r.params
  | .notification n => checkSV n.params
  | .response r =>
    match r.outcome with
    | .result v => isStructuredValue v
    | .error e => checkSV e.data

/-- The field names of a JSON object body, in order. -/
def objKeys : GoValue → List String
  | .vObject fs => fs.map Prod.fst
  | _ => []

/-- The field names the spec prescribes for the encoding of a message:
jsonrpc, id, method, then the optional payload field when present. -/
def specKeys : Message → List String
  | .request r => ["jsonrpc", "id", "method"] ++
      (match r.params with | some _ => ["params"] | none => [])
  | .response r => ["jsonrpc", "id"] ++
      (match r.outcome with | .result _ => ["result"] | .error _ => ["error"])
  | .notification n => ["jsonrpc", "method"] ++
      (match n.params with | some _ => ["params"] | none => [])

end Spec

/-- C2: For every valid Message, decoding the encoding yields the same
message again, field for field, including the type of the id field.
Validity means every payload satisfies the StructuredValue grammar;
the codec is modelled from the spec, since the source contains only
the message struct declarations. -/
theorem c2_encode_decode_roundtrip :
    ∀ m : Spec.Message, Spec.validMessage m = true →
      Except.bind (Spec.encode m) Spec.decode = Except.ok m := by
  intro m h
  cases m with
  | request r =>
    obtain ⟨i, mth, p⟩ := r
    simp only [Spec.validMessage] at h
    cases i <;> cases p <;>
      simp_all [Spec.encode, Spec.checkSV, Spec.optField, Spec.decode,
        Spec.lookupField, Spec.encId, Spec.decId, Except.bind]
  | notification n =>
    obtain ⟨mth, p⟩ := n
    simp only [Spec.validMessage] at h
    cases p <;>
      simp_all [Spec.encode, Spec.checkSV, Spec.optField, Spec.decode,
        Spec.lookupField, Except.bind]
  | response r =>
    obtain ⟨oid, oc⟩ := r
    cases oc with
    | result v =>
      simp only [Spec.validMessage] at h
      cases oid with
      | none =>
        simp_all [Spec.encode, Spec.decode, Spec.lookupField, Spec.encRespId,
          Spec.decRespId, Except.bind]
      | some i =>
        cases i <;>
          simp_all [Spec.encode, Spec.decode, Spec.lookupField, Spec.encRespId,
            Spec.decRespId, Spec.encId, Spec.decId, Except.bind]
    | error e =>
      obtain ⟨c, msg, d⟩ := e
      simp only [Spec.validMessage, Spec.checkSV] at h
      cases oid with
      | none =>
        cases d <;>
          simp_all [Spec.encode, Spec.encodeError, Spec.checkSV, Spec.optField,
            Spec.decode, Spec.decodeError, Spec.lookupField, Spec.encRespId,
            Spec.decRespId, Except.bind]
      | some i =>
        cases i <;> cases d <;>
          simp_all [Spec.encode, Spec.encodeError, Spec.checkSV, Spec.optField,
            Spec.decode, Spec.decodeError, Spec.lookupField, Spec.encRespId,
            Spec.decRespId, Spec.encId, Spec.decId, Except.bind]

/-- Witness for C2: a concrete request with an integer id and an
object params payload survives the round trip unchanged. -/
theorem c2_encode_decode_roundtrip_witness :
    Except.bind (Spec.encode (Spec.Message.request
        ⟨Spec.MsgID.num 1, "ping", some (GoValue.vObject [("a", GoValue.vInteger 2)])⟩))
      Spec.decode =
    Except.ok (Spec.Message.request
        ⟨Spec.MsgID.num 1, "ping", some (GoValue.vObject [("a", GoValue.vInteger 2)])⟩) :=
  c2_encode_decode_roundtrip _
    (by simp [Spec.validMessage, Spec.checkSV, isStructuredValue, isStructuredFields])

/-- C4: The codec accepts both ID forms when decoding, an integer id
decodes to an integer ID and a string id decodes to a string ID, and
the encoding of each ID form keeps its JSON type, so an ID is never
converted between number and string. Modelled from the spec, since the
codec is absent from the source. -/
theorem c4_id_forms_preserved :
    ∀ (n : Int) (s mth : String),
      Spec.decode (GoValue.vObject [("jsonrpc", GoValue.vString "2.0"),
          ("id", GoValue.vInteger n), ("method", GoValue.vString mth)]) =
        Except.ok (Spec.Message.request ⟨Spec.MsgID.num n, mth, none⟩) ∧
      Spec.decode (GoValue.vObject [("jsonrpc", GoValue.vString "2.0"),
          ("id", GoValue.vString s), ("method", GoValue.vString mth)]) =
        Except.ok (Spec.Message.request ⟨Spec.MsgID.str s, mth, none⟩) ∧
      Spec.encId (Spec.MsgID.num n) = GoValue.vInteger n ∧
      Spec.encId (Spec.MsgID.str s) = GoValue.vString s := by
  intro n s mth
  refine ⟨?_, ?_, rfl, rfl⟩ <;>
    simp [Spec.decode, Spec.lookupField, Spec.decId]

/-- C5 amended: every response emitted by the spec-modelled encoder
carries exactly one of the result and error fields. -/
theorem c5_encoder_exactly_one :
    ∀ (r : Spec.ResponseMsg) (b : GoValue), Spec.encode (.response r) = .ok b →
      (("result" ∈ Spec.objKeys b) ↔ ¬ ("error" ∈ Spec.objKeys b)) := by
  intro r b hb
  obtain ⟨oid, oc⟩ := r
  cases oc with
  | result v =>
    simp only [Spec.encode] at hb
    split at hb
    · cases hb
      simp [Spec.objKeys]
    · cases hb
  | error e =>
    simp only [Spec.encode] at hb
    split at hb
    · cases hb
      simp [Spec.objKeys]
    · cases hb

/-- Witness for the amended C5: the encoding of a concrete response
with a null result payload has a result field and no error field. -/
theorem c5_encoder_exactly_one_witness :
    ("result" ∈ Spec.objKeys (GoValue.vObject [("jsonrpc", GoValue.vString "2.0"),
        ("id", GoValue.vInteger 1), ("result", GoValue.vNil)])) ↔
    ¬ ("error" ∈ Spec.objKeys (GoValue.vObject [("jsonrpc", GoValue.vString "2.0"),
        ("id", GoValue.vInteger 1), ("result", GoValue.vNil)])) :=
  c5_encoder_exactly_one ⟨some (Spec.MsgID.num 1), .result GoValue.vNil⟩ _
    (by simp [Spec.encode, isStructuredValue, Spec.encRespId, Spec.encId])

/-- C6: The spec-modelled encoder serializes fields in the stable
order jsonrpc, id, method, then params, result or error, omitting the
optional fields when absent, and a ResponseError object carries code,
message, then data only when present. -/
theorem c6_stable_field_order :
    (∀ (m : Spec.Message) (b : GoValue), Spec.encode m = .ok b →
      Spec.objKeys b = Spec.specKeys m) ∧
    (∀ (e : Spec.RespErr) (b : GoValue), Spec.encodeError e = .ok b →
      Spec.objKeys b = ["code", "message"] ++
        (match e.data with | some _ => ["data"] | none => [])) := by
  constructor
  · intro m b hb
    cases m with
    | request r =>
      obtain ⟨i, mth, p⟩ := r
      simp only [Spec.encode] at hb
      split at hb
      · cases hb
        cases p <;> simp [Spec.objKeys, Spec.specKeys, Spec.optField]
      · cases hb
    | notification n =>
      obtain ⟨mth, p⟩ := n
      simp only [Spec.encode] at hb
      split at hb
      · cases hb
        cases p <;> simp [Spec.objKeys, Spec.specKeys, Spec.optField]
      · cases hb
    | response r =>
      obtain ⟨oid, oc⟩ := r
      cases oc with
      | result v =>
        simp only [Spec.encode] at hb
        split at hb
        · cases hb
          simp [Spec.objKeys, Spec.specKeys]
        · cases hb
      | error e =>
        simp only [Spec.encode] at hb
        split at hb
        · cases hb
          simp [Spec.objKeys, Spec.specKeys]
        · cases hb
  · intro e b hb
    obtain ⟨c, msg, d⟩ := e
    simp only [Spec.encodeError] at hb
    split at hb
    · cases hb
      cases d <;> simp [Spec.objKeys, Spec.optField]
    · cases hb

/-- Witness for C6: a concrete request without params encodes with the
keys jsonrpc, id, method and nothing else. -/
theorem c6_stable_field_order_witness :
    Spec.objKeys (GoValue.vObject [("jsonrpc", GoValue.vString "2.0"),
        ("id", GoValue.vInteger 1), ("method", GoValue.vString "ping")]) =
      Spec.specKeys (Spec.Message.request ⟨Spec.MsgID.num 1, "ping", none⟩) :=
  c6_stable_field_order.1 (Spec.Message.request ⟨Spec.MsgID.num 1, "ping", none⟩) _
    (by simp [Spec.encode, Spec.checkSV, Spec.optField, Spec.encId])

/-- C7: A notification carries no id: its encoding holds only the
jsonrpc and method fields, plus params when present, and an id field
never occurs. Modelled from the spec, since the codec is absent from
the source. -/
theorem c7_notification_has_no_id :
    ∀ (n : Spec.NotificationMsg) (b : GoValue),
      Spec.encode (.notification n) = .ok b →
        Spec.objKeys b = ["jsonrpc", "method"] ++
          (match n.params with | some _ => ["params"] | none => []) ∧
        "id" ∉ Spec.objKeys b := by
  intro n b hb
  obtain ⟨mth, p⟩ := n
  simp only [Spec.encode] at hb
  split at hb
  · cases hb
    cases p <;> simp [Spec.objKeys, Spec.optField]
  · cases hb

/-- Witness for C7: a concrete notification without params encodes to
an object with exactly the jsonrpc and method fields and no id. -/
theorem c7_notification_has_no_id_witness :
    Spec.objKeys (GoValue.vObject [("jsonrpc", GoValue.vString "2.0"),
        ("method", GoValue.vString "exit")]) = ["jsonrpc", "method"] ++
      (match (none : Option GoValue) with | some _ => ["params"] | none => []) ∧
    "id" ∉ Spec.objKeys (GoValue.vObject [("jsonrpc", GoValue.vString "2.0"),
        ("method", GoValue.vString "exit")]) :=
  c7_notification_has_no_id ⟨"exit", none⟩ _
    (by simp [Spec.encode, Spec.checkSV, Spec.optField])

/-!
The HeaderCodec is also absent from the source: baseprotocol.go only
declares HeaderPart. Its parse operation is modelled from the spec in
section 4.1: split the header block on CRLF, expect lines of the form
Name, colon, space, Value, fail when no Content-Length line is found,
when its value is not a non-negative integer, or when the terminating
blank line is missing; unknown header fields are ignored and the
Content-Type defaults when absent.
-/

/-- Split a character sequence on CRLF separators. -/
def crlfSplit : List Char → List (List Char)
  | [] => [[]]
  | '\r' :: '\n' :: rest => [] :: crlfSplit rest
  | c :: rest =>
    match crlfSplit rest with
    | [] => [[c]]
    | l :: ls => (c :: l) :: ls

/-- Split a header line at the first colon-space into name and value. -/
def splitNameValue : List Char → Option (List Char × List Char)
  | [] => none
  | ':' :: ' ' :: rest => some ([], rest)
  | c :: rest =>
    match splitNameValue rest with
    | some (n, v) => some (c :: n, v)
    | none => none

/-- The numeric value of a decimal digit character. -/
def digitVal (c : Char) : Option Nat :=
  if c.isDigit then some (c.toNat - 48) else none

/-- Accumulate decimal digits into a natural number. -/
def digitsToNatAux : List Char → Nat → Option Nat
  | [], acc => some acc
  | c :: cs, acc =>
    match digitVal c with
    | some d => digitsToNatAux cs (acc * 10 + d)
    | none => none

/-- A non-empty all-digit character sequence read as a natural number. -/
def digitsToNat : List Char → Option Nat
  | [] => none
  | c :: cs => digitsToNatAux (c :: cs) 0

/-- The lines of the header block strictly before the terminating
blank line; none when no blank line occurs. -/
def headerLines : List (List Char) → Option (List (List Char))
  | [] => none
  | l :: ls =>
    match l with
    | [] => some []
    | _ :: _ =>
      match headerLines ls with
      | some rest => some (l :: rest)
      | none => none

/-- The value of the first Content-Length line, read as a
non-negative integer; none when the line is missing or malformed. -/
def findContentLength : List (List Char) → Option Nat
  | [] => none
  | l :: ls =>
    match splitNameValue l with
    | some (n, v) =>
      if n = "Content-Length".data then digitsToNat v else findContentLength ls
    | none => findContentLength ls

/-- The value of the first Content-Type line, when present. -/
def findContentType : List (List Char) → Option String
  | [] => none
  | l :: ls =>
    match splitNameValue l with
    | some (n, v) =>
      if n = "Content-Type".data then some (String.mk v) else findContentType ls
    | none => findContentType ls

/-- The default content type the spec prescribes. -/
def defaultContentType : String := "application/vscode-jsonrpc; charset=utf-8"

/-- Modelled from the spec: parse of the missing HeaderCodec. Fails
when the terminating blank line is missing, when no Content-Length
line occurs before it, or when the Content-Length value is not a
non-negative decimal integer; ignores unknown fields and defaults the
content type. -/
def parseHeader (s : String) : Except String HeaderPart :=
  match headerLines (crlfSplit s.data) with
  | none => .error "MalformedHeader"
  | some lines =>
    match findContentLength lines with
    | none => .error "MalformedHeader"
    | some n => .ok ⟨(n : Int), (findContentType lines).getD defaultContentType⟩

/-- C8 amended: the HeaderPart type does not itself enforce a
non-negative content length, but every header the spec-modelled
parse operation returns satisfies content_length at least zero. -/
theorem c8_parse_content_length_nonneg :
    ∀ (s : String) (h : HeaderPart), parseHeader s = Except.ok h →
      0 ≤ h.ContentLength := by
  intro s h hp
  unfold parseHeader at hp
  split at hp
  · cases hp
  · split at hp
    · cases hp
    · cases hp
      exact Int.natCast_nonneg _

/-- Witness for the amended C8: parsing a concrete header block with a
Content-Length of ten yields a header with non-negative length. -/
theorem c8_parse_content_length_nonneg_witness :
    0 ≤ (HeaderPart.mk 10 defaultContentType).ContentLength :=
  c8_parse_content_length_nonneg "Content-Length: 10\r\n\r\n"
    (HeaderPart.mk 10 defaultContentType) (by rfl)
